import Mathlib

/-!
Verification of the IREE model-group registry
(`build_tools/python/e2e_test_framework/models/model_groups.py`) and the
platform package builder for the TFLite import tool
(`integrations/tensorflow/python_projects/iree_tflite/setup.py`).

The registry is embedded as literal Lean lists.  The package builder, a
one-shot script, is embedded as a function from an explicit environment
(host OS string, filesystem facts about the tool binary and the version
file, wheel-module availability, default packaging options) to a trace of
executed stages together with either a build error or the package record
handed to `setup(...)`.
-/

/-- A JSON field value as far as the builder inspects it: the version file
holds optional string fields, so we model `null` and string values.
Python truthiness (`x or default`) maps `null` and `""` to the default. -/
inductive JVal
  | null
  | str (s : String)
  deriving DecidableEq, Repr

/-- The two fields of `version_info.json` that `setup.py` reads.
`none` means the key is absent from the record. -/
structure VersionInfo where
  packageSuffix : Option JVal := none
  packageVersion : Option JVal := none
  deriving DecidableEq, Repr

/-- Python `record.get(key) or default` for a string-or-null field:
absent, `null` and `""` all fall back to the default. -/
def jGetOr (v : Option JVal) (d : String) : String :=
  match v with
  | some (JVal.str s) => if s = "" then d else s
  | _ => d

/-- `PACKAGE_SUFFIX = version_info.get("package-suffix") or ""` -/
def PACKAGE_SUFFIX (vi : VersionInfo) : String :=
  jGetOr vi.packageSuffix ""

/-- `PACKAGE_VERSION = version_info.get("package-version") or "0.1dev1"` -/
def PACKAGE_VERSION (vi : VersionInfo) : String :=
  jGetOr vi.packageVersion "0.1dev1"

/-- `exe_suffix = ".exe" if platform.system() == "Windows" else ""` -/
def exe_suffix (sys : String) : String :=
  if sys = "Windows" then ".exe" else ""

/-- `os.path.join(os.path.dirname(__file__), "iree", "tools", "tflite",
f"iree-import-tflite{exe_suffix}")`, with `/` as the path separator. -/
def import_tflite_path (scriptDir sys : String) : String :=
  scriptDir ++ "/iree/tools/tflite/" ++ ("iree-import-tflite" ++ exe_suffix sys)

/-- The remedial instructions in the missing-tool error message. -/
def remediation_instructions : String :=
  "Be sure to build //iree_tf_compiler:iree-import-tflite and run ./symlink_binaries.sh"

/-- The message of the `RuntimeError` raised when `os.access(import_tflite_path,
os.X_OK)` is false. -/
def missing_tool_message (p : String) : String :=
  "Tool not found (" ++ p ++ "). " ++ remediation_instructions

/-- `sub` occurs contiguously inside `msg`. -/
def containsSub (msg sub : String) : Prop :=
  ∃ pre post, msg = pre ++ sub ++ post

/-- The error taxonomy of the build step.  `MissingArtifact` is the
`RuntimeError` raised by the tool-access check; `VersionFileParseError` is
the `json.JSONDecodeError` that propagates uncaught out of
`load_version_info` (only `FileNotFoundError` is caught). -/
inductive BuildError
  | MissingArtifact (msg : String)
  | VersionFileParseError
  deriving DecidableEq, Repr

/-- State of `version_info.json` on disk. -/
inductive VFileState
  | absent
  | malformed
  | valid (vi : VersionInfo)
  deriving DecidableEq, Repr

/-- Options of the `install` command relevant to `platlib_install`. -/
structure InstallOpts where
  install_lib : String
  install_platlib : String
  deriving DecidableEq, Repr

/-- `platlib_install.finalize_options`: after the base class runs,
`self.install_lib = self.install_platlib`. -/
def platlib_install_finalize (o : InstallOpts) : InstallOpts :=
  { o with install_lib := o.install_platlib }

/-- Options of the `bdist_wheel` command relevant to the subclass. -/
structure WheelOpts where
  root_is_pure : Bool
  deriving DecidableEq, Repr

/-- `bdist_wheel.finalize_options`: after the base class runs,
`self.root_is_pure = False`. -/
def bdist_wheel_finalize (o : WheelOpts) : WheelOpts :=
  { o with root_is_pure := false }

/-- `bdist_wheel.get_tag`: take the default tag, overwrite the python and
abi components with literals, and return the platform component as is. -/
def get_tag (default : String × String × String) : String × String × String :=
  let plat := default.2.2
  ("py3", "none", plat)

/-- Wheel metadata produced when the `wheel` module imports. -/
structure WheelMeta where
  root_is_pure : Bool
  tag : String × String × String
  deriving DecidableEq, Repr

/-- Everything the script reads from its surroundings. -/
structure Env where
  system : String
  scriptDir : String
  toolExists : Bool
  toolExecutable : Bool
  versionFile : VFileState
  wheelModuleAvailable : Bool
  defaultRootIsPure : Bool
  defaultWheelTag : String × String × String
  defaultInstallLib : String
  purelibLoc : String
  platlibLoc : String
  deriving DecidableEq, Repr

/-- `os.access(import_tflite_path, os.X_OK)`: true iff the file exists and
is marked executable. -/
def toolAccessOk (env : Env) : Bool :=
  env.toolExists && env.toolExecutable

/-- The record passed to `setup(...)`, including the effect of the two
command overrides in `cmdclass`. -/
structure Package where
  name : String
  version : String
  package_data : List String
  entry_points : List (String × String)
  wheelMeta : Option WheelMeta
  install_lib : String
  deriving DecidableEq, Repr

/-- Assemble the `setup(...)` call from the environment and the loaded
version record. -/
def mkPackage (env : Env) (vi : VersionInfo) : Package :=
  { name := "iree-tools-tflite" ++ PACKAGE_SUFFIX vi
  , version := PACKAGE_VERSION vi
  , package_data := ["iree-import-tflite" ++ exe_suffix env.system]
  , entry_points :=
      [("iree-import-tflite",
        "iree.tools.tflite.scripts.iree_import_tflite.__main__:main")]
  , wheelMeta :=
      if env.wheelModuleAvailable then
        some { root_is_pure :=
                 (bdist_wheel_finalize
                   { root_is_pure := env.defaultRootIsPure }).root_is_pure
             , tag := get_tag env.defaultWheelTag }
      else none
  , install_lib :=
      (platlib_install_finalize
        { install_lib := env.defaultInstallLib
        , install_platlib := env.platlibLoc }).install_lib }

/-- The stages of the build, in source order. -/
inductive Stage
  | resolve
  | loadVersion
  | computeIdentity
  | emit
  deriving DecidableEq, Repr

/-- The linear stage order of the script. -/
def STAGE_ORDER : List Stage :=
  [Stage.resolve, Stage.loadVersion, Stage.computeIdentity, Stage.emit]

/-- Outcome of one invocation: the stages that ran, whether the
file-not-found warning was printed, and the result. -/
structure RunResult where
  trace : List Stage
  warnedMissingVersionFile : Bool
  result : Except BuildError Package
  deriving Repr

/-- The whole script, top to bottom: resolve the tool path and check
access, try to load `version_info.json` (catching only file-not-found),
compute the package identity, and call `setup(...)`. -/
def runSetup (env : Env) : RunResult :=
  if toolAccessOk env then
    match env.versionFile with
    | VFileState.malformed =>
        { trace := [Stage.resolve, Stage.loadVersion]
        , warnedMissingVersionFile := false
        , result := Except.error BuildError.VersionFileParseError }
    | VFileState.absent =>
        { trace := STAGE_ORDER
        , warnedMissingVersionFile := true
        , result := Except.ok (mkPackage env {}) }
    | VFileState.valid vi =>
        { trace := STAGE_ORDER
        , warnedMissingVersionFile := false
        , result := Except.ok (mkPackage env vi) }
  else
    { trace := [Stage.resolve]
    , warnedMissingVersionFile := false
    , result := Except.error (BuildError.MissingArtifact
        (missing_tool_message (import_tflite_path env.scriptDir env.system))) }

/-- Opaque model descriptors referenced by `model_groups.py` (defined in
the external `tf_models` / `tflite_models` modules). -/
inductive Model
  | DEEPLABV3_FP32
  | MOBILESSD_FP32
  | POSENET_FP32
  | MOBILEBERT_FP32
  | MOBILEBERT_INT8
  | MOBILEBERT_FP16
  | MOBILENET_V1
  | MOBILENET_V2
  | MOBILENET_V3SMALL
  | PERSON_DETECT_INT8
  | EFFICIENTNET_INT8
  | MINILM_L12_H384_UNCASED_INT32_SEQLEN128
  deriving DecidableEq, Repr

namespace model_groups

/-- The `SMALL` group, in declaration order. -/
def SMALL : List Model :=
  [Model.DEEPLABV3_FP32, Model.MOBILESSD_FP32, Model.POSENET_FP32,
   Model.MOBILEBERT_FP32, Model.MOBILEBERT_INT8, Model.MOBILEBERT_FP16,
   Model.MOBILENET_V1, Model.MOBILENET_V2, Model.MOBILENET_V3SMALL,
   Model.PERSON_DETECT_INT8, Model.EFFICIENTNET_INT8]

/-- The `LARGE` group. -/
def LARGE : List Model :=
  [Model.MINILM_L12_H384_UNCASED_INT32_SEQLEN128]

/-- `ALL = SMALL + LARGE` -/
def ALL : List Model :=
  SMALL ++ LARGE

end model_groups

/-! Concrete environments used by the witness theorems. -/

/-- A version record with a nightly suffix and an explicit version. -/
def viNightly : VersionInfo :=
  { packageSuffix := some (JVal.str "-nightly")
  , packageVersion := some (JVal.str "1.2.3") }

/-- A Linux host with the tool built and executable and a valid version
file. -/
def envNightly : Env :=
  { system := "Linux"
  , scriptDir := "/w"
  , toolExists := true
  , toolExecutable := true
  , versionFile := VFileState.valid viNightly
  , wheelModuleAvailable := true
  , defaultRootIsPure := true
  , defaultWheelTag := ("cp311", "cp311", "manylinux1_x86_64")
  , defaultInstallLib := "lib/python/site-packages"
  , purelibLoc := "lib/python/site-packages"
  , platlibLoc := "lib64/python/site-packages" }

/-- Same host, but the tool binary was never built. -/
def envMissingTool : Env :=
  { envNightly with toolExists := false }

/-- Same host, but `version_info.json` is absent. -/
def envAbsentVersion : Env :=
  { envNightly with versionFile := VFileState.absent }

/-- Same host, but `version_info.json` exists and is not valid JSON. -/
def envMalformedVersion : Env :=
  { envNightly with versionFile := VFileState.malformed }

/-- C1: with the tool binary missing or not executable, the run fails with
`MissingArtifact`, the message contains the resolved path and the remedial
instructions, and neither the identity-computation nor the emit stage ever
runs. -/
theorem missing_artifact_aborts_before_metadata (env : Env)
    (h : env.toolExists = false ∨ env.toolExecutable = false) :
    (runSetup env).result
      = Except.error (BuildError.MissingArtifact
          (missing_tool_message (import_tflite_path env.scriptDir env.system))) ∧
    containsSub (missing_tool_message (import_tflite_path env.scriptDir env.system))
      (import_tflite_path env.scriptDir env.system) ∧
    containsSub (missing_tool_message (import_tflite_path env.scriptDir env.system))
      remediation_instructions ∧
    (runSetup env).trace = [Stage.resolve] ∧
    Stage.computeIdentity ∉ (runSetup env).trace ∧
    Stage.emit ∉ (runSetup env).trace := by
  have hacc : toolAccessOk env = false := by
    cases h with
    | inl h => simp [toolAccessOk, h]
    | inr h => simp [toolAccessOk, h]
  refine ⟨?_, ?_, ?_, ?_, ?_, ?_⟩
  · simp [runSetup, hacc]
  · exact ⟨"Tool not found (", "). " ++ remediation_instructions,
      by simp [missing_tool_message, String.append_assoc]⟩
  · refine ⟨"Tool not found (" ++ import_tflite_path env.scriptDir env.system ++ "). ",
      "", ?_⟩
    simp [missing_tool_message, String.append_assoc, String.append_empty]
  · simp [runSetup, hacc]
  · simp [runSetup, hacc]
  · simp [runSetup, hacc]

/-- Witness for C1 at a concrete environment with the tool absent. -/
theorem missing_artifact_aborts_before_metadata_witness :
    (envMissingTool.toolExists = false ∨ envMissingTool.toolExecutable = false) ∧
    ((runSetup envMissingTool).result
      = Except.error (BuildError.MissingArtifact
          (missing_tool_message
            (import_tflite_path envMissingTool.scriptDir envMissingTool.system))) ∧
     containsSub
       (missing_tool_message
         (import_tflite_path envMissingTool.scriptDir envMissingTool.system))
       (import_tflite_path envMissingTool.scriptDir envMissingTool.system) ∧
     containsSub
       (missing_tool_message
         (import_tflite_path envMissingTool.scriptDir envMissingTool.system))
       remediation_instructions ∧
     (runSetup envMissingTool).trace = [Stage.resolve] ∧
     Stage.computeIdentity ∉ (runSetup envMissingTool).trace ∧
     Stage.emit ∉ (runSetup envMissingTool).trace) :=
  ⟨Or.inl rfl, missing_artifact_aborts_before_metadata envMissingTool (Or.inl rfl)⟩

/-- C2: `ALL` is exactly `SMALL` followed by `LARGE`: the same elements,
in the same order, nothing dropped, added or deduplicated. -/
theorem all_is_ordered_concat_of_groups :
    model_groups.ALL = model_groups.SMALL ++ model_groups.LARGE ∧
    model_groups.ALL =
      [Model.DEEPLABV3_FP32, Model.MOBILESSD_FP32, Model.POSENET_FP32,
       Model.MOBILEBERT_FP32, Model.MOBILEBERT_INT8, Model.MOBILEBERT_FP16,
       Model.MOBILENET_V1, Model.MOBILENET_V2, Model.MOBILENET_V3SMALL,
       Model.PERSON_DETECT_INT8, Model.EFFICIENTNET_INT8,
       Model.MINILM_L12_H384_UNCASED_INT32_SEQLEN128] ∧
    model_groups.ALL.length
      = model_groups.SMALL.length + model_groups.LARGE.length := by
  refine ⟨rfl, by decide, by decide⟩

/-- C9: the wheel-tag override keeps the platform component of the
default-computed tag and replaces only the python and abi components with
the literals. -/
theorem get_tag_overrides_python_abi_keeps_plat
    (py abi plat : String) :
    get_tag (py, abi, plat) = ("py3", "none", plat) := by
  simp [get_tag]

/-- C10: a `package-suffix` field that is present but empty or null yields
the empty suffix, and a `package-version` field that is present but empty
or null yields the default placeholder. -/
theorem identity_fallback_by_truthiness (vi : VersionInfo) :
    ((vi.packageSuffix = some JVal.null ∨ vi.packageSuffix = some (JVal.str "")) →
      PACKAGE_SUFFIX vi = "") ∧
    ((vi.packageVersion = some JVal.null ∨ vi.packageVersion = some (JVal.str "")) →
      PACKAGE_VERSION vi = "0.1dev1") := by
  constructor
  · intro h
    cases h with
    | inl h => simp [PACKAGE_SUFFIX, jGetOr, h]
    | inr h => simp [PACKAGE_SUFFIX, jGetOr, h]
  · intro h
    cases h with
    | inl h => simp [PACKAGE_VERSION, jGetOr, h]
    | inr h => simp [PACKAGE_VERSION, jGetOr, h]

/-- Witness for C10 at a record with a null suffix and an empty version. -/
theorem identity_fallback_by_truthiness_witness :
    PACKAGE_SUFFIX
      { packageSuffix := some JVal.null
      , packageVersion := some (JVal.str "") } = "" ∧
    PACKAGE_VERSION
      { packageSuffix := some JVal.null
      , packageVersion := some (JVal.str "") } = "0.1dev1" :=
  ⟨(identity_fallback_by_truthiness _).1 (Or.inl rfl),
   (identity_fallback_by_truthiness _).2 (Or.inr rfl)⟩

/-- C8: the resolved executable path is the fixed relative directory plus
the fixed base name plus the platform suffix, and the suffix is `".exe"`
exactly when the OS identity is Windows and empty otherwise. -/
theorem resolved_filename_suffix (d s : String) :
    import_tflite_path d s
      = d ++ "/iree/tools/tflite/" ++ ("iree-import-tflite" ++ exe_suffix s) ∧
    (exe_suffix s = ".exe" ↔ s = "Windows") ∧
    (s ≠ "Windows" → exe_suffix s = "") := by
  refine ⟨rfl, ?_, ?_⟩
  · constructor
    · intro h
      by_contra hs
      simp [exe_suffix, hs] at h
    · intro h
      simp [exe_suffix, h]
  · intro h
    simp [exe_suffix, h]

/-- Witness for C8 on a Linux host. -/
theorem resolved_filename_suffix_witness :
    import_tflite_path "/w" "Linux"
      = "/w" ++ "/iree/tools/tflite/" ++ ("iree-import-tflite" ++ exe_suffix "Linux") ∧
    (exe_suffix "Linux" = ".exe" ↔ ("Linux" : String) = "Windows") ∧
    (("Linux" : String) ≠ "Windows" → exe_suffix "Linux" = "") :=
  resolved_filename_suffix "/w" "Linux"

/-- Build a version record whose present fields are strings. -/
def strVI (suf ver : Option String) : VersionInfo :=
  { packageSuffix := Option.map JVal.str suf
  , packageVersion := Option.map JVal.str ver }

/-- C3: for every version record with string fields, the package name is
the fixed base name plus the suffix field (empty if absent), the version
is the version field or the placeholder if absent or empty, and with
suffix "-nightly" and version "1.2.3" the identity is
("iree-tools-tflite-nightly", "1.2.3"). -/
theorem package_identity_formula (env : Env) (suf ver : Option String) :
    (mkPackage env (strVI suf ver)).name
      = "iree-tools-tflite" ++ suf.getD "" ∧
    ((ver = none ∨ ver = some "") →
      (mkPackage env (strVI suf ver)).version = "0.1dev1") ∧
    (∀ v, ver = some v → v ≠ "" →
      (mkPackage env (strVI suf ver)).version = v) ∧
    (mkPackage env viNightly).name = "iree-tools-tflite-nightly" ∧
    (mkPackage env viNightly).version = "1.2.3" := by
  refine ⟨?_, ?_, ?_, rfl, rfl⟩
  · cases suf with
    | none => simp [mkPackage, strVI, PACKAGE_SUFFIX, jGetOr]
    | some s =>
        by_cases hs : s = ""
        · simp [mkPackage, strVI, PACKAGE_SUFFIX, jGetOr, hs]
        · simp [mkPackage, strVI, PACKAGE_SUFFIX, jGetOr, hs]
  · intro h
    cases h with
    | inl h => simp [mkPackage, strVI, PACKAGE_VERSION, jGetOr, h]
    | inr h => simp [mkPackage, strVI, PACKAGE_VERSION, jGetOr, h]
  · intro v hv hne
    simp [mkPackage, strVI, PACKAGE_VERSION, jGetOr, hv, hne]

/-- Witness for C3 at the nightly record. -/
theorem package_identity_formula_witness :
    (mkPackage envNightly (strVI (some "-nightly") (some "1.2.3"))).name
      = "iree-tools-tflite" ++ (some "-nightly").getD "" ∧
    (mkPackage envNightly viNightly).name = "iree-tools-tflite-nightly" ∧
    (mkPackage envNightly viNightly).version = "1.2.3" ∧
    (mkPackage envNightly (strVI (some "-nightly") (some "1.2.3"))).version = "1.2.3" :=
  ⟨(package_identity_formula envNightly (some "-nightly") (some "1.2.3")).1,
   (package_identity_formula envNightly (some "-nightly") (some "1.2.3")).2.2.2.1,
   (package_identity_formula envNightly (some "-nightly") (some "1.2.3")).2.2.2.2,
   (package_identity_formula envNightly (some "-nightly") (some "1.2.3")).2.2.1
     "1.2.3" rfl (by decide)⟩

/-- C4: whenever the build emits a package, that package is installed into
the platform-library location (not the pure-code location when the two
differ), and when the wheel module is available its wheel metadata is
forced non-pure with the overridden tag. -/
theorem emitted_package_platform_specific (env : Env) (pkg : Package)
    (h : (runSetup env).result = Except.ok pkg) :
    pkg.install_lib = env.platlibLoc ∧
    (env.purelibLoc ≠ env.platlibLoc → pkg.install_lib ≠ env.purelibLoc) ∧
    (env.wheelModuleAvailable = true →
      pkg.wheelMeta
        = some { root_is_pure := false, tag := get_tag env.defaultWheelTag }) := by
  have hpkg : ∃ vi, pkg = mkPackage env vi := by
    by_cases hacc : toolAccessOk env
    · cases hvf : env.versionFile with
      | malformed => simp [runSetup, hacc, hvf] at h
      | absent =>
          simp [runSetup, hacc, hvf] at h
          exact ⟨{}, h.symm⟩
      | valid vi =>
          simp [runSetup, hacc, hvf] at h
          exact ⟨vi, h.symm⟩
    · simp [runSetup, hacc] at h
  obtain ⟨vi, rfl⟩ := hpkg
  refine ⟨rfl, ?_, ?_⟩
  · intro hne
    simp [mkPackage, platlib_install_finalize]
    exact fun hc => hne hc.symm
  · intro hw
    simp [mkPackage, hw, bdist_wheel_finalize]

/-- Witness for C4 at the nightly environment. -/
theorem emitted_package_platform_specific_witness :
    (runSetup envNightly).result = Except.ok (mkPackage envNightly viNightly) ∧
    ((mkPackage envNightly viNightly).install_lib = envNightly.platlibLoc ∧
     (envNightly.purelibLoc ≠ envNightly.platlibLoc →
       (mkPackage envNightly viNightly).install_lib ≠ envNightly.purelibLoc) ∧
     (envNightly.wheelModuleAvailable = true →
       (mkPackage envNightly viNightly).wheelMeta
         = some { root_is_pure := false
                , tag := get_tag envNightly.defaultWheelTag })) :=
  ⟨rfl, emitted_package_platform_specific envNightly (mkPackage envNightly viNightly) rfl⟩

/-- C5: with the tool present but the version file existing and
unparsable, the run fails hard with `VersionFileParseError` — no fallback
to defaults — while the same environment with the file merely absent
succeeds. -/
theorem malformed_version_file_is_hard_error (env : Env)
    (hex : env.toolExists = true) (hxo : env.toolExecutable = true)
    (hvf : env.versionFile = VFileState.malformed) :
    (runSetup env).result = Except.error BuildError.VersionFileParseError ∧
    Stage.emit ∉ (runSetup env).trace ∧
    (runSetup { env with versionFile := VFileState.absent }).result
      = Except.ok (mkPackage { env with versionFile := VFileState.absent } {}) := by
  have hacc : toolAccessOk env = true := by simp [toolAccessOk, hex, hxo]
  have hacc2 : toolAccessOk { env with versionFile := VFileState.absent } = true := by
    simp [toolAccessOk, hex, hxo]
  refine ⟨?_, ?_, ?_⟩
  · simp [runSetup, hacc, hvf]
  · simp [runSetup, hacc, hvf]
  · simp [runSetup, hacc2]

/-- Witness for C5 at the malformed-file environment. -/
theorem malformed_version_file_is_hard_error_witness :
    envMalformedVersion.toolExists = true ∧
    envMalformedVersion.toolExecutable = true ∧
    envMalformedVersion.versionFile = VFileState.malformed ∧
    ((runSetup envMalformedVersion).result
        = Except.error BuildError.VersionFileParseError ∧
     Stage.emit ∉ (runSetup envMalformedVersion).trace ∧
     (runSetup { envMalformedVersion with versionFile := VFileState.absent }).result
        = Except.ok
            (mkPackage
              { envMalformedVersion with versionFile := VFileState.absent } {})) :=
  ⟨rfl, rfl, rfl,
   malformed_version_file_is_hard_error envMalformedVersion rfl rfl rfl⟩

/-- C6: with the tool present and the version file absent, the run warns,
continues with the empty record, and produces the default identity:
base name with empty suffix and the placeholder version. -/
theorem absent_version_file_warns_and_defaults (env : Env)
    (hex : env.toolExists = true) (hxo : env.toolExecutable = true)
    (hvf : env.versionFile = VFileState.absent) :
    (runSetup env).warnedMissingVersionFile = true ∧
    (runSetup env).result = Except.ok (mkPackage env {}) ∧
    (mkPackage env {}).name = "iree-tools-tflite" ∧
    (mkPackage env {}).version = "0.1dev1" := by
  have hacc : toolAccessOk env = true := by simp [toolAccessOk, hex, hxo]
  refine ⟨?_, ?_, rfl, rfl⟩
  · simp [runSetup, hacc, hvf]
  · simp [runSetup, hacc, hvf]

/-- Witness for C6 at the absent-version-file environment. -/
theorem absent_version_file_warns_and_defaults_witness :
    envAbsentVersion.toolExists = true ∧
    envAbsentVersion.toolExecutable = true ∧
    envAbsentVersion.versionFile = VFileState.absent ∧
    ((runSetup envAbsentVersion).warnedMissingVersionFile = true ∧
     (runSetup envAbsentVersion).result
        = Except.ok (mkPackage envAbsentVersion {}) ∧
     (mkPackage envAbsentVersion {}).name = "iree-tools-tflite" ∧
     (mkPackage envAbsentVersion {}).version = "0.1dev1") :=
  ⟨rfl, rfl, rfl,
   absent_version_file_warns_and_defaults envAbsentVersion rfl rfl rfl⟩

/-- C7: every run's trace is a prefix of the fixed linear stage order; a
successful run executes all four stages; a failing run never reaches the
emit stage (and a resolve failure reaches nothing after resolve); the one
non-terminal failure is the absent version file, which still completes. -/
theorem stages_linear_terminal_on_failure (env : Env) :
    (∃ k, k ≤ 4 ∧ (runSetup env).trace = STAGE_ORDER.take k) ∧
    (∀ pkg, (runSetup env).result = Except.ok pkg →
      (runSetup env).trace = STAGE_ORDER) ∧
    (∀ e, (runSetup env).result = Except.error e →
      Stage.emit ∉ (runSetup env).trace ∧
      Stage.computeIdentity ∉ (runSetup env).trace) ∧
    (env.toolExists = true → env.toolExecutable = true →
      env.versionFile = VFileState.absent →
      (runSetup env).result = Except.ok (mkPackage env {}) ∧
      (runSetup env).trace = STAGE_ORDER) := by
  by_cases hacc : toolAccessOk env
  · cases hvf : env.versionFile with
    | malformed =>
        refine ⟨⟨2, by decide, by simp [runSetup, hacc, hvf, STAGE_ORDER]⟩, ?_, ?_, ?_⟩
        · intro pkg h
          simp [runSetup, hacc, hvf] at h
        · intro e _
          constructor <;> simp [runSetup, hacc, hvf]
        · intro _ _ habs
          simp [hvf] at habs
    | absent =>
        refine ⟨⟨4, by decide, by simp [runSetup, hacc, hvf, STAGE_ORDER]⟩, ?_, ?_, ?_⟩
        · intro pkg _
          simp [runSetup, hacc, hvf]
        · intro e h
          simp [runSetup, hacc, hvf] at h
        · intro _ _ _
          constructor <;> simp [runSetup, hacc, hvf]
    | valid vi =>
        refine ⟨⟨4, by decide, by simp [runSetup, hacc, hvf, STAGE_ORDER]⟩, ?_, ?_, ?_⟩
        · intro pkg _
          simp [runSetup, hacc, hvf]
        · intro e h
          simp [runSetup, hacc, hvf] at h
        · intro _ _ habs
          simp [hvf] at habs
  · refine ⟨⟨1, by decide, by simp [runSetup, hacc, STAGE_ORDER]⟩, ?_, ?_, ?_⟩
    · intro pkg h
      simp [runSetup, hacc] at h
    · intro e _
      constructor <;> simp [runSetup, hacc]
    · intro hex hxo _
      exact absurd (by simp [toolAccessOk, hex, hxo]) hacc

/-- Witness for C7 at the absent-version-file environment, including the
inner implications discharged at concrete inputs. -/
theorem stages_linear_terminal_on_failure_witness :
    ((∃ k, k ≤ 4 ∧ (runSetup envAbsentVersion).trace = STAGE_ORDER.take k) ∧
     (runSetup envAbsentVersion).result = Except.ok (mkPackage envAbsentVersion {}) ∧
     (runSetup envAbsentVersion).trace = STAGE_ORDER) ∧
    (Stage.emit ∉ (runSetup envMissingTool).trace ∧
     Stage.computeIdentity ∉ (runSetup envMissingTool).trace) :=
  ⟨⟨(stages_linear_terminal_on_failure envAbsentVersion).1,
    (stages_linear_terminal_on_failure envAbsentVersion).2.2.2 rfl rfl rfl⟩,
   (stages_linear_terminal_on_failure envMissingTool).2.2.1
     (BuildError.MissingArtifact
       (missing_tool_message
         (import_tflite_path envMissingTool.scriptDir envMissingTool.system)))
     rfl⟩
